import Mathlib

/-!
Verification of `src/template_project_offline/my_example.cpp`.

The program is a linear script: it creates an output directory (exiting
with status 1 on failure), builds a small pendulum scene out of external
physics-library objects, configures a POV-Ray exporter, writes the export
script once, and then runs a fixed-step simulation loop until simulated
time reaches 1.5, printing the time and exporting one data frame per step.

We embed the program as a pure function from an environment (the results
of the external-library calls: the outcome of `filesystem::create_directory`
and the effect of `DoStepDynamics` on the simulated clock) to an event
trace, an iteration list, and an exit code.  The loop is driven by fuel;
a `completed` flag records whether the loop exited through its own guard
rather than by running out of fuel.  Machine doubles of the source are
modelled as exact rationals.
-/

namespace MyExample

/-- A 3-component vector, modelling `ChVector3d`. -/
structure ChVector3d where
  x : ℚ
  y : ℚ
  z : ℚ
  deriving DecidableEq

/-- A colour, modelling `ChColor` (r, g, b). -/
structure ChColor where
  r : ℚ
  g : ℚ
  b : ℚ
  deriving DecidableEq

/-- References to the two body objects held in shared pointers in `main`. -/
inductive BodyRef where
  | floorBody
  | pendulumBody
  deriving DecidableEq

/-- Model of a `ChBodyEasyBox`: constructor parameters plus the mutable
state touched by the setters used in `main` (`SetPos`, `SetLinVel`,
`SetFixed`). -/
structure ChBodyEasyBox where
  xSize : ℚ
  ySize : ℚ
  zSize : ℚ
  density : ℚ
  visualization : Bool
  collision : Bool
  pos : ChVector3d
  linVel : ChVector3d
  fixed : Bool
  deriving DecidableEq

/-- `ChBodyEasyBox(xSize, ySize, zSize, density, visualization, collision)`:
position, linear velocity and the fixed flag start at their defaults. -/
def mkChBodyEasyBox (xs ys zs d : ℚ) (vis col : Bool) : ChBodyEasyBox :=
  { xSize := xs, ySize := ys, zSize := zs, density := d,
    visualization := vis, collision := col,
    pos := ⟨0, 0, 0⟩, linVel := ⟨0, 0, 0⟩, fixed := false }

/-- `body->SetPos(p)`. -/
def ChBodyEasyBox.SetPos (b : ChBodyEasyBox) (p : ChVector3d) : ChBodyEasyBox :=
  { b with pos := p }

/-- `body->SetLinVel(v)`. -/
def ChBodyEasyBox.SetLinVel (b : ChBodyEasyBox) (v : ChVector3d) : ChBodyEasyBox :=
  { b with linVel := v }

/-- `body->SetFixed(f)`. -/
def ChBodyEasyBox.SetFixed (b : ChBodyEasyBox) (f : Bool) : ChBodyEasyBox :=
  { b with fixed := f }

/-- Model of a `ChLinkMateGeneric` after `Initialize`: the six constrained
degrees of freedom from the constructor, the two connected bodies, whether
the supplied frames are in relative coordinates (third `Initialize`
argument), and the positions of the two link frames. -/
structure ChLinkMateGeneric where
  cX : Bool
  cY : Bool
  cZ : Bool
  cRx : Bool
  cRy : Bool
  cRz : Bool
  body1 : BodyRef
  body2 : BodyRef
  framesAreRelative : Bool
  frame1 : ChVector3d
  frame2 : ChVector3d
  deriving DecidableEq

/-- An item added to the `ChSystemNSC` via `sys.Add`. -/
inductive PhysicsItem where
  | body (b : ChBodyEasyBox)
  | link (l : ChLinkMateGeneric)
  deriving DecidableEq

/-- Observable events of a program run: external-library calls and console
output, in program order. -/
inductive Event where
  | createDirectory (path : String) (ok : Bool)
  | consoleOut (line : String)
  | setChronoDataPath (p : String)
  | setTemplateFile (f : String)
  | setBasePath (p : String)
  | setLight (pos : ChVector3d) (color : ChColor) (castShadow : Bool)
  | setCustomPOVcommands
  | setCollisionSystemType
  | sysAdd (it : PhysicsItem)
  | setColor (b : BodyRef) (c : ChColor)
  | setTexture (b : BodyRef) (f : String)
  | setCamera (pos aim : ChVector3d) (angle : ℚ)
  | addAll
  | exportScript
  | doStepDynamics (s : ℚ)
  | printTime (t : ℚ)
  | exportData
  | spin (s : ℚ)
  deriving DecidableEq

/-- The behaviour of the external world in one run: the string returned by
`GetChronoOutputPath()`, the result of `filesystem::create_directory`, the
`CHRONO_DATA_DIR` path, and the effect of `sys.DoStepDynamics(s)` on the
simulated clock `sys.GetChTime()` (given the step size and the current
time, the new time). -/
structure Env where
  outputPathPrefix : String
  createDirOk : Bool
  chronoDataDir : String
  stepFn : ℚ → ℚ → ℚ

/-- `GetChronoDataFile(f)`: resolve `f` against the data directory set by
`SetChronoDataPath(CHRONO_DATA_DIR)`. -/
def dataFile (env : Env) (f : String) : String :=
  env.chronoDataDir ++ f

/-- `std::string out_dir = GetChronoOutputPath() + "POVRAY_1";` -/
def out_dir (env : Env) : String :=
  env.outputPathPrefix ++ "POVRAY_1"

/-- `floorBody`: a 10 x 2 x 10 box of density 3000 with a visualization
asset and no collision geometry, moved to (0, -2, 0) and fixed. -/
def floorBody : ChBodyEasyBox :=
  ((mkChBodyEasyBox 10 2 10 3000 true false).SetPos ⟨0, -2, 0⟩).SetFixed true

/-- `pendulumBody`: a 0.5 x 2 x 0.5 box of density 3000 with a
visualization asset and no collision geometry, moved to (0, 3, 0) with
initial linear velocity (1, 0, 0). -/
def pendulumBody : ChBodyEasyBox :=
  ((mkChBodyEasyBox (1/2) 2 (1/2) 3000 true false).SetPos ⟨0, 3, 0⟩).SetLinVel ⟨1, 0, 0⟩

/-- `link_position_abs`: the position of `ChFrame<> link_position_abs(ChVector3d(0, 4, 0))`. -/
def link_position_abs : ChVector3d := ⟨0, 4, 0⟩

/-- `sphericalLink`: a `ChLinkMateGeneric(true, true, true, false, false, false)`
initialized with `pendulumBody`, `floorBody`, absolute coordinates, and both
frames at `link_position_abs`. -/
def sphericalLink : ChLinkMateGeneric :=
  { cX := true, cY := true, cZ := true, cRx := false, cRy := false, cRz := false,
    body1 := BodyRef.pendulumBody, body2 := BodyRef.floorBody,
    framesAreRelative := false,
    frame1 := link_position_abs, frame2 := link_position_abs }

/-- `double step_size = 5e-3;` declared before the simulation loop and
never read by the executed code. -/
def step_size : ℚ := 5 / 1000

/-- The events between the successful directory creation and the
`ExportScript` call, in source order. -/
def setupEvents (env : Env) : List Event :=
  [Event.setChronoDataPath env.chronoDataDir,
   Event.setTemplateFile (dataFile env "POVRay_chrono_template.pov"),
   Event.setBasePath (out_dir env),
   Event.setLight ⟨-3, 4, 2⟩ ⟨15/100, 15/100, 12/100⟩ false,
   Event.setCustomPOVcommands,
   Event.setCollisionSystemType,
   Event.sysAdd (PhysicsItem.body floorBody),
   Event.sysAdd (PhysicsItem.body pendulumBody),
   Event.sysAdd (PhysicsItem.link sphericalLink),
   Event.setColor BodyRef.pendulumBody ⟨2/10, 5/10, 25/100⟩,
   Event.setTexture BodyRef.floorBody (dataFile env "textures/checker1.png"),
   Event.setCamera ⟨0, 3, -10⟩ ⟨0, 1, 0⟩ 50,
   Event.addAll]

/-- Result of running the simulation loop with a given amount of fuel:
the events of each iteration, the final simulated time, and whether the
loop exited through its guard (rather than exhausting the fuel). -/
structure LoopResult where
  iters : List (List Event)
  finalTime : ℚ
  completed : Bool
  deriving DecidableEq

/-- The loop `while (sys.GetChTime() < 1.5) { sys.DoStepDynamics(0.01);
print time; pov_exporter.ExportData(); }`, driven by fuel.  `f` is the
environment's `stepFn`; each iteration calls it with the literal step
size 0.01 and records the time it prints, which is `GetChTime()` after
the step. -/
def simLoop (f : ℚ → ℚ → ℚ) : ℚ → ℕ → LoopResult
  | t, 0 => ⟨[], t, !decide (t < 3/2)⟩
  | t, n + 1 =>
    if t < 3/2 then
      let t' := f (1/100) t
      let r := simLoop f t' n
      ⟨[Event.doStepDynamics (1/100), Event.printTime t', Event.exportData] :: r.iters,
       r.finalTime, r.completed⟩
    else
      ⟨[], t, true⟩

/-- Result of a whole run of `main`. -/
structure MainResult where
  trace : List Event
  iterations : List (List Event)
  exitCode : ℕ
  completed : Bool

set_option linter.unusedVariables false in
/-- The `main(int argc, char* argv[])` function.  `argc` and `argv` are
taken but never read.  The simulated clock of the freshly constructed
`ChSystemNSC` starts at 0. -/
def main (argc : ℕ) (argv : List String) (env : Env) (fuel : ℕ) : MainResult :=
  if !env.createDirOk then
    { trace := [Event.createDirectory (out_dir env) false,
                Event.consoleOut ("Error creating directory " ++ out_dir env)],
      iterations := [], exitCode := 1, completed := true }
  else
    let r := simLoop env.stepFn 0 fuel
    { trace := Event.createDirectory (out_dir env) true ::
               (setupEvents env ++ Event.exportScript :: r.iters.flatten),
      iterations := r.iters, exitCode := 0, completed := r.completed }

/-- Recognizer for `ExportData` events. -/
def Event.isExportData : Event → Bool
  | .exportData => true
  | _ => false

/-- Recognizer for `ExportScript` events. -/
def Event.isExportScript : Event → Bool
  | .exportScript => true
  | _ => false

/-- Recognizer for export calls of either kind. -/
def Event.isExportCall : Event → Bool
  | .exportScript => true
  | .exportData => true
  | _ => false

/-- Recognizer for `SetCamera` events. -/
def Event.isSetCamera : Event → Bool
  | .setCamera _ _ _ => true
  | _ => false

/-- Recognizer for `AddAll` events. -/
def Event.isAddAll : Event → Bool
  | .addAll => true
  | _ => false

/-- Recognizer for `Spin` events (real-time pacing). -/
def Event.isSpin : Event → Bool
  | .spin _ => true
  | _ => false

/-- Recognizer for printed-time console lines. -/
def Event.isPrintTime : Event → Bool
  | .printTime _ => true
  | _ => false

/-- The time value carried by a printed-time console line. -/
def Event.timeArg : Event → Option ℚ
  | .printTime t => some t
  | _ => none

/-- The step size carried by a `DoStepDynamics` call. -/
def Event.stepArg : Event → Option ℚ
  | .doStepDynamics s => some s
  | _ => none

/-- The item carried by a `sys.Add` call. -/
def Event.addedItem : Event → Option PhysicsItem
  | .sysAdd it => some it
  | _ => none

/-- The sequence of time values printed to the console during a trace. -/
def printedTimes (tr : List Event) : List ℚ :=
  tr.filterMap Event.timeArg

/-- The sequence of items handed to `sys.Add` during a trace. -/
def addedItems (tr : List Event) : List PhysicsItem :=
  tr.filterMap Event.addedItem

/-- An environment whose `DoStepDynamics(s)` advances the clock by exactly
`s`, with directory creation succeeding. -/
def exactStep : ℚ → ℚ → ℚ := fun s t => t + s

/-- A concrete successful environment used for witnesses. -/
def okEnv : Env :=
  { outputPathPrefix := "", createDirOk := true, chronoDataDir := "", stepFn := exactStep }

/-- A concrete environment in which directory creation fails. -/
def failEnv : Env :=
  { outputPathPrefix := "", createDirOk := false, chronoDataDir := "", stepFn := exactStep }

/-- The loop only ever calls the step function with step size 0.01, so two
step functions that agree at step size 0.01 drive identical loops. -/
theorem simLoop_congr (f g : ℚ → ℚ → ℚ) (h : ∀ t, f (1/100) t = g (1/100) t) :
    ∀ (n : ℕ) (t : ℚ), simLoop f t n = simLoop g t n := by
  intro n
  induction n with
  | zero => intro t; rfl
  | succ n ih =>
    intro t
    by_cases hc : t < 3/2
    · simp only [simLoop, if_pos hc, h t, ih]
    · simp only [simLoop, if_neg hc]

/-- Every iteration of the loop consists of exactly the three events
`DoStepDynamics(0.01)`, the console print of the post-step time, and
`ExportData()`, in that order. -/
theorem simLoop_mem_iters (f : ℚ → ℚ → ℚ) :
    ∀ (n : ℕ) (t : ℚ), ∀ it ∈ (simLoop f t n).iters,
      ∃ u, it = [Event.doStepDynamics (1/100), Event.printTime (f (1/100) u),
                 Event.exportData] := by
  intro n
  induction n with
  | zero => intro t it hit; simp [simLoop] at hit
  | succ n ih =>
    intro t it hit
    by_cases hc : t < 3/2
    · simp only [simLoop, if_pos hc, List.mem_cons] at hit
      rcases hit with h | h
      · exact ⟨t, h⟩
      · exact ih _ it h
    · simp [simLoop, if_neg hc] at hit

/-- Every event emitted inside the loop is a `DoStepDynamics(0.01)` call,
a printed time, or an `ExportData()` call. -/
theorem simLoop_mem_flatten (f : ℚ → ℚ → ℚ) (n : ℕ) (t : ℚ) (e : Event)
    (he : e ∈ (simLoop f t n).iters.flatten) :
    e = Event.doStepDynamics (1/100) ∨ (∃ u, e = Event.printTime u) ∨
      e = Event.exportData := by
  rcases List.mem_flatten.mp he with ⟨it, hit, hei⟩
  rcases simLoop_mem_iters f n t it hit with ⟨u, rfl⟩
  simp only [List.mem_cons, List.not_mem_nil, or_false] at hei
  rcases hei with rfl | rfl | rfl
  · exact Or.inl rfl
  · exact Or.inr (Or.inl ⟨f (1/100) u, rfl⟩)
  · exact Or.inr (Or.inr rfl)

/-- If every `DoStepDynamics(0.01)` call advances the clock by at least
0.01, then fuel `n` with `1.5 - t ≤ n * 0.01` lets the loop exit through
its guard after at most `n` iterations. -/
theorem simLoop_term (f : ℚ → ℚ → ℚ) (hf : ∀ t, t + 1/100 ≤ f (1/100) t) :
    ∀ (n : ℕ) (t : ℚ), 3/2 - t ≤ n * (1/100) →
      (simLoop f t n).completed = true ∧ (simLoop f t n).iters.length ≤ n := by
  intro n
  induction n with
  | zero =>
    intro t h
    have ht : ¬ t < 3/2 := by
      simp only [Nat.cast_zero, zero_mul] at h
      linarith
    constructor
    · simp [simLoop, ht]
    · simp [simLoop]
  | succ n ih =>
    intro t h
    by_cases hc : t < 3/2
    · have h1 := hf t
      have h2 : 3/2 - f (1/100) t ≤ n * (1/100) := by
        push_cast at h ⊢
        linarith
      obtain ⟨hca, hcb⟩ := ih (f (1/100) t) h2
      refine ⟨?_, ?_⟩
      · simpa [simLoop, if_pos hc] using hca
      · simpa [simLoop, if_pos hc] using Nat.succ_le_succ hcb
    · exact ⟨by simp [simLoop, if_neg hc], by simp [simLoop, if_neg hc]⟩

/-- Exact characterization of the loop when every `DoStepDynamics(0.01)`
advances the clock by exactly 0.01: with fuel `n` matching
`1.5 - t = n * 0.01`, the loop runs exactly `n` iterations, the `i`-th
printing time `t + (i+1) * 0.01`, and exits through its guard. -/
theorem simLoop_exact (f : ℚ → ℚ → ℚ) (hf : ∀ t, f (1/100) t = t + 1/100) :
    ∀ (n : ℕ) (t : ℚ), 3/2 - t = n * (1/100) →
      (simLoop f t n).iters =
        (List.range n).map (fun (i : ℕ) =>
          [Event.doStepDynamics (1/100), Event.printTime (t + ((i : ℚ) + 1) * (1/100)),
           Event.exportData]) ∧
      (simLoop f t n).completed = true := by
  intro n
  induction n with
  | zero =>
    intro t h
    have ht : ¬ t < 3/2 := by
      simp only [Nat.cast_zero, zero_mul] at h
      linarith
    exact ⟨by simp [simLoop], by simp [simLoop, ht]⟩
  | succ n ih =>
    intro t h
    push_cast at h
    have hc : t < 3/2 := by nlinarith [Nat.cast_nonneg (α := ℚ) n]
    have ht' : 3/2 - f (1/100) t = n * (1/100) := by
      rw [hf t]; linarith
    obtain ⟨h1, h2⟩ := ih (f (1/100) t) ht'
    constructor
    · rw [hf t] at h1
      simp only [simLoop, if_pos hc, hf t]
      rw [h1, List.range_succ_eq_map, List.map_cons, List.map_map]
      congr 1
      · norm_num
      · apply List.map_congr_left
        intro i hi
        simp only [Function.comp_apply, List.cons.injEq, Event.printTime.injEq,
          and_true, true_and]
        push_cast
        ring
    · simpa [simLoop, if_pos hc] using h2

/-- Under a successful directory creation and exact 0.01 stepping, the run
with fuel 150 performs exactly the 150 iterations with printed times
0.01, 0.02, ..., 1.50, and the loop exits through its guard. -/
theorem main_exact (argc : ℕ) (argv : List String) (env : Env)
    (hdir : env.createDirOk = true)
    (hstep : ∀ t, env.stepFn (1/100) t = t + 1/100) :
    (main argc argv env 150).iterations =
      (List.range 150).map (fun (i : ℕ) =>
        [Event.doStepDynamics (1/100), Event.printTime (((i : ℚ) + 1) * (1/100)),
         Event.exportData]) ∧
    (main argc argv env 150).completed = true := by
  have h0 : (3 : ℚ)/2 - 0 = (150 : ℕ) * (1/100) := by norm_num
  obtain ⟨h1, h2⟩ := simLoop_exact env.stepFn hstep 150 0 h0
  constructor
  · simp only [main, hdir, Bool.not_true, Bool.false_eq_true, if_false]
    rw [h1]
    apply List.map_congr_left
    intro i hi
    norm_num
  · simp only [main, hdir, Bool.not_true, Bool.false_eq_true, if_false]
    exact h2

/-- Structure of the loop-emitted events: for a list of iterations that
each consist of a step, a print and a data export, the step arguments are
all 0.01, there is no `Spin`, no `ExportScript`, and one `ExportData` per
iteration. -/
theorem loopShape (L : List (List Event))
    (hL : ∀ it ∈ L, ∃ u,
      it = [Event.doStepDynamics (1/100), Event.printTime u, Event.exportData]) :
    L.flatten.filterMap Event.stepArg = List.replicate L.length (1/100) ∧
    L.flatten.countP Event.isSpin = 0 ∧
    L.flatten.countP Event.isExportScript = 0 ∧
    L.flatten.countP Event.isExportData = L.length := by
  induction L with
  | nil => exact ⟨rfl, rfl, rfl, rfl⟩
  | cons a l ih =>
    obtain ⟨u, rfl⟩ := hL _ (List.mem_cons_self _ l)
    obtain ⟨h1, h2, h3, h4⟩ := ih (fun it hit => hL it (List.mem_cons_of_mem _ hit))
    refine ⟨?_, ?_, ?_, ?_⟩
    · simp [List.flatten_cons, List.filterMap_append, List.filterMap_cons,
        Event.stepArg, h1, List.replicate_succ]
    · simp [List.flatten_cons, List.countP_append, List.countP_cons, Event.isSpin, h2]
    · simp [List.flatten_cons, List.countP_append, List.countP_cons,
        Event.isExportScript, h3]
    · simp [List.flatten_cons, List.countP_append, List.countP_cons,
        Event.isExportData, h4]

/-- The printed times of a list of step-print-export iterations are
exactly the per-iteration time values. -/
theorem printedTimes_iters (g : ℕ → ℚ) :
    ∀ l : List ℕ,
      printedTimes ((l.map (fun i =>
        [Event.doStepDynamics (1/100), Event.printTime (g i),
         Event.exportData])).flatten) = l.map g := by
  intro l
  induction l with
  | nil => rfl
  | cons a l ih =>
    simp only [List.map_cons, List.flatten_cons, printedTimes,
      List.filterMap_append, List.filterMap_cons, Event.timeArg] at ih ⊢
    rw [ih]
    rfl

/-- C1: starting from simulated time 0, under the precondition that each
`sys.DoStepDynamics(0.01)` advances `sys.GetChTime()` by exactly 0.01, the
loop guarded by `sys.GetChTime() < 1.5` executes exactly 150 iterations,
every iteration performs exactly one `pov_exporter.ExportData()` call, and
exactly 150 export-data calls are made in total. -/
theorem claim_C1 (argc : ℕ) (argv : List String) (env : Env)
    (hdir : env.createDirOk = true)
    (hstep : ∀ t, env.stepFn (1/100) t = t + 1/100) :
    (main argc argv env 150).iterations.length = 150 ∧
    (∀ it ∈ (main argc argv env 150).iterations,
      it.countP Event.isExportData = 1) ∧
    (main argc argv env 150).trace.countP Event.isExportData = 150 := by
  obtain ⟨h1, -⟩ := main_exact argc argv env hdir hstep
  have hshape : ∀ it ∈ (main argc argv env 150).iterations, ∃ u,
      it = [Event.doStepDynamics (1/100), Event.printTime u, Event.exportData] := by
    intro it hit
    rw [h1] at hit
    rcases List.mem_map.mp hit with ⟨i, -, rfl⟩
    exact ⟨_, rfl⟩
  obtain ⟨-, -, -, h4⟩ := loopShape _ hshape
  have hlen : (main argc argv env 150).iterations.length = 150 := by
    rw [h1]; simp
  refine ⟨hlen, ?_, ?_⟩
  · intro it hit
    obtain ⟨u, rfl⟩ := hshape it hit
    simp [List.countP_cons, Event.isExportData]
  · have htr : (main argc argv env 150).trace =
        Event.createDirectory (out_dir env) true ::
          (setupEvents env ++ Event.exportScript ::
            (main argc argv env 150).iterations.flatten) := by
      simp [main, hdir]
    rw [htr, List.countP_cons, List.countP_append, List.countP_cons, h4, hlen]
    norm_num [setupEvents, List.countP_cons, Event.isExportData]

/-- Witness for C1: a concrete environment with exact 0.01 stepping. -/
theorem claim_C1_witness :
    okEnv.createDirOk = true ∧
    ((main 0 [] okEnv 150).iterations.length = 150 ∧
     (∀ it ∈ (main 0 [] okEnv 150).iterations,
       it.countP Event.isExportData = 1) ∧
     (main 0 [] okEnv 150).trace.countP Event.isExportData = 150) :=
  ⟨rfl, claim_C1 0 [] okEnv rfl (fun _ => rfl)⟩

/-- C2: if `filesystem::create_directory` fails, `main` prints an error
message naming the directory, returns exit status 1, and performs no
further work: the trace holds nothing but the failed creation and the
error line, and no simulation iteration happens. -/
theorem claim_C2 (argc : ℕ) (argv : List String) (env : Env) (fuel : ℕ)
    (hdir : env.createDirOk = false) :
    (main argc argv env fuel).trace =
      [Event.createDirectory (out_dir env) false,
       Event.consoleOut ("Error creating directory " ++ out_dir env)] ∧
    (main argc argv env fuel).exitCode = 1 ∧
    (main argc argv env fuel).iterations = [] := by
  refine ⟨?_, ?_, ?_⟩ <;> simp [main, hdir]

/-- Witness for C2: a concrete environment whose directory creation fails. -/
theorem claim_C2_witness :
    failEnv.createDirOk = false ∧ (main 0 [] failEnv 0).exitCode = 1 :=
  ⟨rfl, (claim_C2 0 [] failEnv 0 rfl).2.1⟩

/-- C3: in every run, the `filesystem::create_directory` call is the very
first event of the trace (hence strictly before the `ExportScript` call
and before every `ExportData` call), and whenever any export call occurs
the directory creation succeeded. -/
theorem claim_C3 (argc : ℕ) (argv : List String) (env : Env) (fuel : ℕ) :
    (main argc argv env fuel).trace.head? =
      some (Event.createDirectory (out_dir env) env.createDirOk) ∧
    (env.createDirOk = true ∨
      (main argc argv env fuel).trace.countP Event.isExportCall = 0) := by
  by_cases hdir : env.createDirOk
  · exact ⟨by simp [main, hdir], Or.inl hdir⟩
  · have hdir' : env.createDirOk = false := by simpa using hdir
    refine ⟨by simp [main, hdir'], Or.inr ?_⟩
    simp [main, hdir', List.countP_cons, Event.isExportCall]

/-- C4: each iteration prints exactly one time line, whose value is
`sys.GetChTime()` as read right after that iteration's
`DoStepDynamics(0.01)` call; over the whole run the printed time values
are monotonically non-decreasing and every printed value is at most 1.5. -/
theorem claim_C4 (argc : ℕ) (argv : List String) (env : Env)
    (hdir : env.createDirOk = true)
    (hstep : ∀ t, env.stepFn (1/100) t = t + 1/100) :
    (∀ it ∈ (main argc argv env 150).iterations,
      it.countP Event.isPrintTime = 1) ∧
    (∀ it ∈ (main argc argv env 150).iterations, ∃ u,
      it = [Event.doStepDynamics (1/100), Event.printTime (env.stepFn (1/100) u),
            Event.exportData]) ∧
    List.Pairwise (· ≤ ·) (printedTimes (main argc argv env 150).trace) ∧
    (∀ q ∈ printedTimes (main argc argv env 150).trace, q ≤ 3/2) := by
  obtain ⟨h1, -⟩ := main_exact argc argv env hdir hstep
  have hiters : (main argc argv env 150).iterations =
      (simLoop env.stepFn 0 150).iters := by
    simp [main, hdir]
  have htr : (main argc argv env 150).trace =
      Event.createDirectory (out_dir env) true ::
        (setupEvents env ++ Event.exportScript ::
          (main argc argv env 150).iterations.flatten) := by
    simp [main, hdir]
  have hpt : printedTimes (main argc argv env 150).trace =
      (List.range 150).map (fun (i : ℕ) => ((i : ℚ) + 1) * (1/100)) := by
    rw [htr, h1]
    have hpre : ∀ X : List Event,
        printedTimes (Event.createDirectory (out_dir env) true ::
          (setupEvents env ++ Event.exportScript :: X)) = printedTimes X := by
      intro X
      simp [printedTimes, setupEvents, Event.timeArg]
    rw [hpre]
    exact printedTimes_iters (fun i => ((i : ℚ) + 1) * (1/100)) (List.range 150)
  refine ⟨?_, ?_, ?_, ?_⟩
  · intro it hit
    rw [h1] at hit
    rcases List.mem_map.mp hit with ⟨i, -, rfl⟩
    simp [List.countP_cons, Event.isPrintTime]
  · intro it hit
    rw [hiters] at hit
    exact simLoop_mem_iters env.stepFn 150 0 it hit
  · rw [hpt]
    refine (List.pairwise_le_range 150).map _ ?_
    intro a b hab
    have hab' : (a : ℚ) ≤ b := by exact_mod_cast hab
    have : (0 : ℚ) < 1/100 := by norm_num
    nlinarith
  · intro q hq
    rw [hpt] at hq
    rcases List.mem_map.mp hq with ⟨i, hi, rfl⟩
    have hi' : i < 150 := List.mem_range.mp hi
    have hi'' : (i : ℚ) ≤ 149 := by exact_mod_cast Nat.lt_succ_iff.mp hi'
    nlinarith

/-- Witness for C4: a concrete environment with exact 0.01 stepping. -/
theorem claim_C4_witness :
    okEnv.createDirOk = true ∧
    ((∀ it ∈ (main 0 [] okEnv 150).iterations,
       it.countP Event.isPrintTime = 1) ∧
     (∀ it ∈ (main 0 [] okEnv 150).iterations, ∃ u,
       it = [Event.doStepDynamics (1/100), Event.printTime (okEnv.stepFn (1/100) u),
             Event.exportData]) ∧
     List.Pairwise (· ≤ ·) (printedTimes (main 0 [] okEnv 150).trace) ∧
     (∀ q ∈ printedTimes (main 0 [] okEnv 150).trace, q ≤ 3/2)) :=
  ⟨rfl, claim_C4 0 [] okEnv rfl (fun _ => rfl)⟩

/-- C5: the program adds exactly three items to the system, in order: a
fixed 10 x 2 x 10 floor box of density 3000 at (0, -2, 0); a non-fixed
0.5 x 2 x 0.5 pendulum box of density 3000 at (0, 3, 0) with initial
linear velocity (1, 0, 0); and a `ChLinkMateGeneric` from the pendulum to
the floor constraining exactly x, y, z (not Rx, Ry, Rz), initialized in
absolute coordinates with both frames at (0, 4, 0). -/
theorem claim_C5 (argc : ℕ) (argv : List String) (env : Env) (fuel : ℕ)
    (hdir : env.createDirOk = true) :
    addedItems (main argc argv env fuel).trace =
      [PhysicsItem.body
         { xSize := 10, ySize := 2, zSize := 10, density := 3000,
           visualization := true, collision := false,
           pos := ⟨0, -2, 0⟩, linVel := ⟨0, 0, 0⟩, fixed := true },
       PhysicsItem.body
         { xSize := 1/2, ySize := 2, zSize := 1/2, density := 3000,
           visualization := true, collision := false,
           pos := ⟨0, 3, 0⟩, linVel := ⟨1, 0, 0⟩, fixed := false },
       PhysicsItem.link
         { cX := true, cY := true, cZ := true,
           cRx := false, cRy := false, cRz := false,
           body1 := BodyRef.pendulumBody, body2 := BodyRef.floorBody,
           framesAreRelative := false,
           frame1 := ⟨0, 4, 0⟩, frame2 := ⟨0, 4, 0⟩ }] := by
  have htr : (main argc argv env fuel).trace =
      Event.createDirectory (out_dir env) true ::
        (setupEvents env ++ Event.exportScript ::
          (simLoop env.stepFn 0 fuel).iters.flatten) := by
    simp [main, hdir]
  have hflat : addedItems (simLoop env.stepFn 0 fuel).iters.flatten = [] := by
    rw [addedItems, List.filterMap_eq_nil_iff]
    intro e he
    rcases simLoop_mem_flatten env.stepFn fuel 0 e he with rfl | ⟨u, rfl⟩ | rfl <;> rfl
  rw [htr]
  have hpre : ∀ X : List Event,
      addedItems (Event.createDirectory (out_dir env) true ::
        (setupEvents env ++ Event.exportScript :: X)) =
      [PhysicsItem.body floorBody, PhysicsItem.body pendulumBody,
       PhysicsItem.link sphericalLink] ++ addedItems X := by
    intro X
    simp [addedItems, setupEvents, Event.addedItem]
  rw [hpre, hflat]
  simp [floorBody, pendulumBody, sphericalLink, mkChBodyEasyBox,
    ChBodyEasyBox.SetPos, ChBodyEasyBox.SetLinVel, ChBodyEasyBox.SetFixed,
    link_position_abs]

/-- Witness for C5: the three added items at a concrete environment. -/
theorem claim_C5_witness :
    okEnv.createDirOk = true ∧
    addedItems (main 0 [] okEnv 0).trace =
      [PhysicsItem.body
         { xSize := 10, ySize := 2, zSize := 10, density := 3000,
           visualization := true, collision := false,
           pos := ⟨0, -2, 0⟩, linVel := ⟨0, 0, 0⟩, fixed := true },
       PhysicsItem.body
         { xSize := 1/2, ySize := 2, zSize := 1/2, density := 3000,
           visualization := true, collision := false,
           pos := ⟨0, 3, 0⟩, linVel := ⟨1, 0, 0⟩, fixed := false },
       PhysicsItem.link
         { cX := true, cY := true, cZ := true,
           cRx := false, cRy := false, cRz := false,
           body1 := BodyRef.pendulumBody, body2 := BodyRef.floorBody,
           framesAreRelative := false,
           frame1 := ⟨0, 4, 0⟩, frame2 := ⟨0, 4, 0⟩ }] :=
  ⟨rfl, claim_C5 0 [] okEnv 0 rfl⟩

/-- C6: `ExportScript()` is called exactly once per run, after the
`SetCamera` call and the `AddAll` call, and strictly before every
`ExportData()` call: the trace splits as `pre ++ ExportScript :: post`
where `pre` holds the camera setup and `AddAll` and no export call of
either kind. -/
theorem claim_C6 (argc : ℕ) (argv : List String) (env : Env) (fuel : ℕ)
    (hdir : env.createDirOk = true) :
    ∃ pre post,
      (main argc argv env fuel).trace = pre ++ Event.exportScript :: post ∧
      pre.countP Event.isExportScript = 0 ∧
      post.countP Event.isExportScript = 0 ∧
      pre.countP Event.isExportData = 0 ∧
      Event.setCamera ⟨0, 3, -10⟩ ⟨0, 1, 0⟩ 50 ∈ pre ∧
      Event.addAll ∈ pre ∧
      (main argc argv env fuel).trace.countP Event.isExportScript = 1 := by
  obtain ⟨-, -, h3, -⟩ := loopShape (simLoop env.stepFn 0 fuel).iters
    (fun it hit => (simLoop_mem_iters env.stepFn fuel 0 it hit).elim
      (fun u h => ⟨env.stepFn (1/100) u, h⟩))
  have htr : (main argc argv env fuel).trace =
      Event.createDirectory (out_dir env) true ::
        (setupEvents env ++ Event.exportScript ::
          (simLoop env.stepFn 0 fuel).iters.flatten) := by
    simp [main, hdir]
  refine ⟨Event.createDirectory (out_dir env) true :: setupEvents env,
         (simLoop env.stepFn 0 fuel).iters.flatten, ?_, ?_, h3, ?_, ?_, ?_, ?_⟩
  · simpa using htr
  · simp [setupEvents, List.countP_cons, Event.isExportScript]
  · simp [setupEvents, List.countP_cons, Event.isExportData]
  · simp [setupEvents]
  · simp [setupEvents]
  · rw [htr, List.countP_cons, List.countP_append, List.countP_cons, h3]
    norm_num [setupEvents, List.countP_cons, Event.isExportScript]

/-- Witness for C6: the split around the single `ExportScript` at a
concrete environment. -/
theorem claim_C6_witness :
    okEnv.createDirOk = true ∧
    (∃ pre post,
      (main 0 [] okEnv 0).trace = pre ++ Event.exportScript :: post ∧
      pre.countP Event.isExportScript = 0 ∧
      post.countP Event.isExportScript = 0 ∧
      pre.countP Event.isExportData = 0 ∧
      Event.setCamera ⟨0, 3, -10⟩ ⟨0, 1, 0⟩ 50 ∈ pre ∧
      Event.addAll ∈ pre ∧
      (main 0 [] okEnv 0).trace.countP Event.isExportScript = 1) :=
  ⟨rfl, claim_C6 0 [] okEnv 0 rfl⟩

/-- C7: the observable behaviour is independent of the command-line
arguments: two runs differing only in `argc`/`argv` produce identical
traces, iteration lists, and exit status, because `main` never reads
them. -/
theorem claim_C7 (argc1 argc2 : ℕ) (argv1 argv2 : List String)
    (env : Env) (fuel : ℕ) :
    main argc1 argv1 env fuel = main argc2 argv2 env fuel := rfl

/-- C8: if simulated time starts at 0 and each `DoStepDynamics(0.01)`
call advances `GetChTime()` by at least 0.01, the while loop exits through
its guard within fuel 150 and runs at most 150 iterations, so `main`
terminates. -/
theorem claim_C8 (argc : ℕ) (argv : List String) (env : Env)
    (hstep : ∀ t, t + 1/100 ≤ env.stepFn (1/100) t) :
    (main argc argv env 150).completed = true ∧
    (main argc argv env 150).iterations.length ≤ 150 := by
  by_cases hdir : env.createDirOk
  · have h0 : (3 : ℚ)/2 - 0 ≤ (150 : ℕ) * (1/100) := by norm_num
    obtain ⟨h1, h2⟩ := simLoop_term env.stepFn hstep 150 0 h0
    exact ⟨by simp [main, hdir, h1], by simpa [main, hdir] using h2⟩
  · have hdir' : env.createDirOk = false := by simpa using hdir
    exact ⟨by simp [main, hdir'], by simp [main, hdir']⟩

/-- Witness for C8 at a concrete environment. -/
theorem claim_C8_witness :
    (main 0 [] okEnv 150).completed = true ∧
    (main 0 [] okEnv 150).iterations.length ≤ 150 :=
  claim_C8 0 [] okEnv (fun _ => le_refl _)

/-- C9: assuming the external library returns normally (each
`DoStepDynamics(0.01)` advances the clock by at least 0.01, so the run
finishes), the exit status is 1 exactly when directory creation fails and
0 otherwise; no other status occurs. -/
theorem claim_C9 (argc : ℕ) (argv : List String) (env : Env)
    (hstep : ∀ t, t + 1/100 ≤ env.stepFn (1/100) t) :
    (main argc argv env 150).completed = true ∧
    (main argc argv env 150).exitCode = if env.createDirOk then 0 else 1 := by
  by_cases hdir : env.createDirOk
  · have h0 : (3 : ℚ)/2 - 0 ≤ (150 : ℕ) * (1/100) := by norm_num
    obtain ⟨h1, -⟩ := simLoop_term env.stepFn hstep 150 0 h0
    exact ⟨by simp [main, hdir, h1], by simp [main, hdir]⟩
  · have hdir' : env.createDirOk = false := by simpa using hdir
    exact ⟨by simp [main, hdir'], by simp [main, hdir']⟩

/-- Witness for C9 at a concrete failing environment. -/
theorem claim_C9_witness :
    (main 0 [] failEnv 150).completed = true ∧
    (main 0 [] failEnv 150).exitCode = if failEnv.createDirOk then 0 else 1 :=
  claim_C9 0 [] failEnv (fun _ => le_refl _)

/-- C10: the run performs no real-time pacing (`Spin` is never called)
and every integration step uses the literal step 0.01, never the unused
`step_size` variable (whose value 5e-3 differs from 0.01). -/
theorem claim_C10 (argc : ℕ) (argv : List String) (env : Env) (fuel : ℕ) :
    (main argc argv env fuel).trace.countP Event.isSpin = 0 ∧
    (main argc argv env fuel).trace.filterMap Event.stepArg =
      List.replicate (main argc argv env fuel).iterations.length (1/100) ∧
    (1/100 : ℚ) ≠ step_size := by
  have hne : (1/100 : ℚ) ≠ step_size := by
    rw [step_size]; norm_num
  by_cases hdir : env.createDirOk
  · obtain ⟨hJ1, hJ2, -, -⟩ := loopShape (simLoop env.stepFn 0 fuel).iters
      (fun it hit => (simLoop_mem_iters env.stepFn fuel 0 it hit).elim
        (fun u h => ⟨env.stepFn (1/100) u, h⟩))
    refine ⟨?_, ?_, hne⟩
    · simp [main, hdir, List.countP_cons, List.countP_append, setupEvents,
        Event.isSpin, hJ2]
    · simp [main, hdir, List.filterMap_cons, List.filterMap_append, setupEvents,
        Event.stepArg, hJ1]
  · have hdir' : env.createDirOk = false := by simpa using hdir
    refine ⟨?_, ?_, hne⟩ <;>
      simp [main, hdir', Event.isSpin, Event.stepArg]

end MyExample
